import Mathlib

/-! Verification of the natural-language time resolver of zapping-node
(`src/constants.ts`, class `TimeParser`).

Modelling conventions. Instants (JavaScript `Date` values and `getTime()`
results, epoch milliseconds) are `Int`. The external grammar collaborator
`chrono.parse` is a parameter `chrono : String → List Int` returning the ranked
candidate instants (best first); the locale-dependent formatting helpers
`formatTime` / `formatDate` are parameters `Int → String`. The ambient wall
clock `new Date()` is an explicit reference instant `now`, the same instant
for resolution and for description generation. The statement
`dayBefore.setDate(dayBefore.getDate() - 1)` — same clock time one calendar
day earlier — is subtraction of 86400000 ms, the timezone-free reading.
`Math.floor` of a real division by a positive integer constant is floor
division `Int.fdiv`. -/

namespace Zapping

/-- JavaScript whitespace test underlying `String.prototype.trim`. -/
def isWs (c : Char) : Bool := c.isWhitespace

/-- Character-list model of `String.prototype.trim`: drop whitespace from both
ends of the character sequence. -/
def trimChars (l : List Char) : List Char :=
  ((l.dropWhile isWs).reverse.dropWhile isWs).reverse

/-- Model of `expression.trim()`. -/
def jsTrim (s : String) : String := String.mk (trimChars s.data)

/-- Model of the `ParsedTime` interface: `timestamp` in UNIX seconds,
human-readable `description`, and the resolved instant `date` in epoch ms. -/
structure ParsedTime where
  timestamp : Int
  description : String
  date : Int
deriving Repr, DecidableEq

/-- Model of the ternary pluralization `n !== 1 ? 's' : ''`. -/
def plural (n : Int) : String := if n ≠ 1 then "s" else ""

/-- Milliseconds in one calendar day, the amount subtracted by
`setDate(getDate() - 1)` in the timezone-free model. -/
def msPerDay : Int := 86400000

/-- Model of `TimeParser.generateDescription`: bucket the elapsed time since
`parsedDate` into minutes / hours / days / long-past branches. -/
def generateDescription (fmtTime fmtDate : Int → String)
    (now : Int) (originalExpression : String) (parsedDate : Int) : String :=
  let diffMs := now - parsedDate
  let diffMinutes := Int.fdiv diffMs (1000 * 60)
  let diffHours := Int.fdiv diffMinutes 60
  let diffDays := Int.fdiv diffHours 24
  if diffMinutes < 60 then
    toString diffMinutes ++ " minute" ++ plural diffMinutes ++ " ago"
  else if diffHours < 24 then
    toString diffHours ++ " hour" ++ plural diffHours ++ " ago"
  else if diffDays < 7 then
    if diffDays = 1 then
      "yesterday at " ++ fmtTime parsedDate
    else
      toString diffDays ++ " day" ++ plural diffDays ++ " ago at " ++ fmtTime parsedDate
  else
    originalExpression ++ " (" ++ fmtDate parsedDate ++ ")"

/-- Model of `TimeParser.parseTimeExpression`: trim, reject empty input, take
the grammar's first candidate, apply the past-only disambiguation (one day
back when the candidate is in the future), and build the `ParsedTime`. -/
def parseTimeExpression (chrono : String → List Int)
    (fmtTime fmtDate : Int → String) (now : Int)
    (expression : String) : Option ParsedTime :=
  let trimmed := jsTrim expression
  if trimmed = "" then
    none
  else
    match (chrono trimmed).head? with
    | none => none
    | some parsedDate =>
      if now < parsedDate then
        let dayBefore := parsedDate - msPerDay
        if dayBefore ≤ now then
          some { timestamp := Int.fdiv dayBefore 1000,
                 description := generateDescription fmtTime fmtDate now expression dayBefore,
                 date := dayBefore }
        else
          none
      else
        some { timestamp := Int.fdiv parsedDate 1000,
               description := generateDescription fmtTime fmtDate now expression parsedDate,
               date := parsedDate }

/-- Model of `TimeParser.validateTimeExpression`: resolvable iff
`parseTimeExpression` does not return `null`. -/
def validateTimeExpression (chrono : String → List Int)
    (fmtTime fmtDate : Int → String) (now : Int)
    (expression : String) : Bool :=
  (parseTimeExpression chrono fmtTime fmtDate now expression).isSome

/-- Model of `TimeParser.getCurrentTimestamp`: `Math.floor(Date.now() / 1000)`
with the current instant passed explicitly. -/
def getCurrentTimestamp (now : Int) : Int := Int.fdiv now 1000

/-- Model of `TimeParser.getExamples`: the fixed catalog of sample
expressions. -/
def getExamples : List String :=
  ["2 hours ago",
   "30 minutes ago",
   "1 day ago",
   "yesterday at 3pm",
   "yesterday 15:30",
   "last friday at 9am",
   "tuesday at noon",
   "3 days ago at 2pm",
   "this morning at 8am",
   "last night at 10pm"]

/-! Helper lemmas about trimming. -/

theorem dropWhile_idem (p : Char → Bool) (l : List Char) :
    (l.dropWhile p).dropWhile p = l.dropWhile p := by
  induction l with
  | nil => rfl
  | cons a t ih =>
    by_cases h : p a
    · simpa [List.dropWhile_cons, h] using ih
    · simp [List.dropWhile_cons, h]

theorem dropWhile_head_false (p : Char → Bool) (l : List Char) (a : Char)
    (t : List Char) (h : l.dropWhile p = a :: t) : p a = false := by
  induction l with
  | nil => exact absurd h (by simp)
  | cons b u ih =>
    by_cases hb : p b
    · exact ih (by simpa [List.dropWhile_cons, hb] using h)
    · rw [List.dropWhile_cons, if_neg hb] at h
      cases h
      exact Bool.eq_false_iff.mpr hb

theorem trimChars_dropWhile (l : List Char) :
    (trimChars l).dropWhile isWs = trimChars l := by
  unfold trimChars
  cases hmr : ((l.dropWhile isWs).reverse.dropWhile isWs).reverse with
  | nil => simp
  | cons a t =>
    have hs : (l.dropWhile isWs).reverse.dropWhile isWs <:+ (l.dropWhile isWs).reverse :=
      List.dropWhile_suffix _
    have hp : ((l.dropWhile isWs).reverse.dropWhile isWs).reverse <+: l.dropWhile isWs := by
      have hq := List.reverse_prefix.mpr hs
      simpa using hq
    rw [hmr] at hp
    obtain ⟨r, hr⟩ := hp
    have ha : isWs a = false :=
      dropWhile_head_false isWs l a (t ++ r) (by simpa using hr.symm)
    simp [List.dropWhile_cons, ha]

theorem trimChars_reverse_dropWhile (l : List Char) :
    (trimChars l).reverse.dropWhile isWs = (trimChars l).reverse := by
  simp [trimChars, dropWhile_idem]

theorem trimChars_idem (l : List Char) : trimChars (trimChars l) = trimChars l := by
  conv_lhs => rw [trimChars, trimChars_dropWhile, trimChars_reverse_dropWhile]
  simp

theorem jsTrim_idem (s : String) : jsTrim (jsTrim s) = jsTrim s := by
  simp [jsTrim, trimChars_idem]

theorem jsTrim_eq_empty_of_ws (s : String) (h : ∀ c ∈ s.data, isWs c = true) :
    jsTrim s = "" := by
  have hd : s.data.dropWhile isWs = [] :=
    List.dropWhile_eq_nil_iff.mpr (fun a ha => h a ha)
  simp [jsTrim, trimChars, hd]

/-! Helper lemmas about strings and descriptions. -/

theorem append_ne_empty_right (s t : String) (h : t ≠ "") : s ++ t ≠ "" := by
  intro hc
  apply h
  rw [String.ext_iff] at hc ⊢
  rw [String.data_append] at hc
  exact (List.append_eq_nil.mp hc).2

theorem append_ne_empty_left (s t : String) (h : s ≠ "") : s ++ t ≠ "" := by
  intro hc
  apply h
  rw [String.ext_iff] at hc ⊢
  rw [String.data_append] at hc
  exact (List.append_eq_nil.mp hc).1

theorem plural_eq (n : Int) : plural n = if n = 1 then "" else "s" := by
  unfold plural
  by_cases h : n = 1 <;> simp [h]

theorem generateDescription_ne_empty (fmtTime fmtDate : Int → String)
    (now : Int) (e : String) (d : Int) :
    generateDescription fmtTime fmtDate now e d ≠ "" := by
  simp only [generateDescription]
  split_ifs
  · exact append_ne_empty_right _ _ (by decide)
  · exact append_ne_empty_right _ _ (by decide)
  · exact append_ne_empty_left _ _ (by decide)
  · exact append_ne_empty_left _ _ (append_ne_empty_right _ _ (by decide))
  · exact append_ne_empty_right _ _ (by decide)

theorem parse_some_spec (chrono : String → List Int)
    (fmtTime fmtDate : Int → String) (now : Int) (e : String) (p : ParsedTime)
    (h : parseTimeExpression chrono fmtTime fmtDate now e = some p) :
    p.timestamp = Int.fdiv p.date 1000 ∧
    p.description = generateDescription fmtTime fmtDate now e p.date ∧
    p.date ≤ now := by
  simp only [parseTimeExpression] at h
  split at h
  · exact absurd h (by simp)
  · split at h
    · exact absurd h (by simp)
    · rename_i parsedDate heq
      split at h
      · rename_i hfut
        split at h
        · rename_i hback
          cases h
          exact ⟨rfl, rfl, hback⟩
        · exact absurd h (by simp)
      · rename_i hfut
        cases h
        exact ⟨rfl, rfl, le_of_not_lt hfut⟩

/-! Concrete instantiations used by witnesses. -/

def wChrono (d : Int) : String → List Int := fun _ => [d]

def wFmt (s : String) : Int → String := fun _ => s

/-- C1: past-only invariant — whenever `parseTimeExpression` returns a
`ParsedTime`, its resolved instant `date` is at-or-before the reference
instant `now`. -/
theorem c1_past_only (chrono : String → List Int) (fmtTime fmtDate : Int → String)
    (now : Int) (expression : String) (p : ParsedTime)
    (h : parseTimeExpression chrono fmtTime fmtDate now expression = some p) :
    p.date ≤ now :=
  (parse_some_spec chrono fmtTime fmtDate now expression p h).2.2

/-- Witness for C1 at a concrete input. -/
theorem c1_past_only_witness :
    ParsedTime.date ⟨0, "0 minutes ago", 0⟩ ≤ (5 : Int) :=
  c1_past_only (wChrono 0) (wFmt "T") (wFmt "D") 5 "x" ⟨0, "0 minutes ago", 0⟩ (by decide)

/-- C2: one-day-back disambiguation — when the trimmed expression is non-empty
and the top-ranked grammar candidate is strictly after `now`, the result is the
candidate shifted one calendar day back when that shifted instant is
at-or-before `now`, and `none` otherwise. -/
theorem c2_one_day_back (chrono : String → List Int) (fmtTime fmtDate : Int → String)
    (now : Int) (expression : String) (c : Int)
    (hne : jsTrim expression ≠ "")
    (hhead : (chrono (jsTrim expression)).head? = some c)
    (hfut : now < c) :
    parseTimeExpression chrono fmtTime fmtDate now expression =
      if c - msPerDay ≤ now then
        some { timestamp := Int.fdiv (c - msPerDay) 1000,
               description := generateDescription fmtTime fmtDate now expression (c - msPerDay),
               date := c - msPerDay }
      else
        none := by
  simp only [parseTimeExpression, if_neg hne, hhead, if_pos hfut]

/-- Witness for C2: a candidate exactly one day in the future is rescued. -/
theorem c2_one_day_back_witness :
    parseTimeExpression (wChrono 86400000) (wFmt "T") (wFmt "D") 0 "x"
      = some ⟨0, "0 minutes ago", 0⟩ := by
  have h := c2_one_day_back (wChrono 86400000) (wFmt "T") (wFmt "D") 0 "x" 86400000
    (by decide) (by decide) (by decide)
  exact h.trans (by decide)

/-- C3 counterexample: at exactly 24 hours the generated description is the
"yesterday at {time}" form, not a day-count "1 day(s) ago" form as the claim
states. -/
theorem c3_boundary_counterexample :
    generateDescription (wFmt "12:00 AM") (wFmt "D") 86400000 "1 day ago" 0
      = "yesterday at 12:00 AM" ∧
    generateDescription (wFmt "12:00 AM") (wFmt "D") 86400000 "1 day ago" 0
      ≠ "1 day ago" ∧
    generateDescription (wFmt "12:00 AM") (wFmt "D") 86400000 "1 day ago" 0
      ≠ "1 day(s) ago" :=
  ⟨by decide, by decide, by decide⟩

/-- C3 (amended): all thresholds are strict comparisons; at exactly 60 minutes
the hours branch yields "1 hour ago"; at exactly 24 hours the day branch is
taken and, the day count being one, yields "yesterday at {time}"; at exactly
7 days the verbatim-expression branch echoes the original expression with a
formatted calendar date. -/
theorem c3_boundaries (fmtTime fmtDate : Int → String) (now d : Int) (e : String) :
    (now - d = 3600000 →
      generateDescription fmtTime fmtDate now e d = "1 hour ago") ∧
    (now - d = 86400000 →
      generateDescription fmtTime fmtDate now e d = "yesterday at " ++ fmtTime d) ∧
    (now - d = 604800000 →
      generateDescription fmtTime fmtDate now e d = e ++ " (" ++ fmtDate d ++ ")") := by
  refine ⟨fun h => ?_, fun h => ?_, fun h => ?_⟩
  · simp only [generateDescription]
    rw [h, show Int.fdiv ((3600000 : Int)) (1000 * 60) = 60 from by decide,
      show Int.fdiv ((60 : Int)) 60 = 1 from by decide,
      show Int.fdiv ((1 : Int)) 24 = 0 from by decide,
      if_neg (by decide : ¬ ((60 : Int) < 60)), if_pos (by decide : (1 : Int) < 24)]
    decide
  · simp only [generateDescription]
    rw [h, show Int.fdiv ((86400000 : Int)) (1000 * 60) = 1440 from by decide,
      show Int.fdiv ((1440 : Int)) 60 = 24 from by decide,
      show Int.fdiv ((24 : Int)) 24 = 1 from by decide]
    norm_num
  · simp only [generateDescription]
    rw [h, show Int.fdiv ((604800000 : Int)) (1000 * 60) = 10080 from by decide,
      show Int.fdiv ((10080 : Int)) 60 = 168 from by decide,
      show Int.fdiv ((168 : Int)) 24 = 7 from by decide]
    norm_num

/-- Witness for C3 (amended) at the three exact boundaries. -/
theorem c3_boundaries_witness :
    generateDescription (wFmt "T") (wFmt "D") 3600000 "x" 0 = "1 hour ago" ∧
    generateDescription (wFmt "T") (wFmt "D") 86400000 "x" 0 = "yesterday at T" ∧
    generateDescription (wFmt "T") (wFmt "D") 604800000 "x" 0 = "x (D)" :=
  ⟨(c3_boundaries (wFmt "T") (wFmt "D") 3600000 0 "x").1 (by decide),
   ((c3_boundaries (wFmt "T") (wFmt "D") 86400000 0 "x").2.1 (by decide)).trans (by decide),
   ((c3_boundaries (wFmt "T") (wFmt "D") 604800000 0 "x").2.2 (by decide)).trans (by decide)⟩

/-- C4: description branch selection — the description of every accepted
resolution follows the minute / hour / yesterday / day-count / verbatim
cascade on the floored differences from `now`, singular iff the count is 1. -/
theorem c4_description_branches (chrono : String → List Int)
    (fmtTime fmtDate : Int → String) (now : Int) (expression : String)
    (p : ParsedTime)
    (h : parseTimeExpression chrono fmtTime fmtDate now expression = some p) :
    p.description =
      if Int.fdiv (now - p.date) (1000 * 60) < 60 then
        toString (Int.fdiv (now - p.date) (1000 * 60)) ++ " minute" ++
          (if Int.fdiv (now - p.date) (1000 * 60) = 1 then "" else "s") ++ " ago"
      else if Int.fdiv (Int.fdiv (now - p.date) (1000 * 60)) 60 < 24 then
        toString (Int.fdiv (Int.fdiv (now - p.date) (1000 * 60)) 60) ++ " hour" ++
          (if Int.fdiv (Int.fdiv (now - p.date) (1000 * 60)) 60 = 1 then "" else "s") ++ " ago"
      else if Int.fdiv (Int.fdiv (Int.fdiv (now - p.date) (1000 * 60)) 60) 24 < 7 then
        if Int.fdiv (Int.fdiv (Int.fdiv (now - p.date) (1000 * 60)) 60) 24 = 1 then
          "yesterday at " ++ fmtTime p.date
        else
          toString (Int.fdiv (Int.fdiv (Int.fdiv (now - p.date) (1000 * 60)) 60) 24) ++
            " day" ++
            (if Int.fdiv (Int.fdiv (Int.fdiv (now - p.date) (1000 * 60)) 60) 24 = 1
              then "" else "s") ++
            " ago at " ++ fmtTime p.date
      else
        expression ++ " (" ++ fmtDate p.date ++ ")" := by
  rw [(parse_some_spec chrono fmtTime fmtDate now expression p h).2.1]
  simp only [generateDescription, plural_eq]

/-- Witness for C4 at a concrete minute-branch input. -/
theorem c4_description_branches_witness :
    ParsedTime.description ⟨0, "0 minutes ago", 0⟩ = "0 minutes ago" := by
  have h := c4_description_branches (wChrono 0) (wFmt "T") (wFmt "D") 5 "x"
    ⟨0, "0 minutes ago", 0⟩ (by decide)
  exact h.trans (by decide)

/-- C5: truncation to whole seconds — the returned timestamp is the floor of
the resolved instant's epoch milliseconds divided by 1000, and
`getCurrentTimestamp` applies the same floor to the current instant. -/
theorem c5_truncation (chrono : String → List Int) (fmtTime fmtDate : Int → String)
    (now : Int) (expression : String) (p : ParsedTime)
    (h : parseTimeExpression chrono fmtTime fmtDate now expression = some p) :
    p.timestamp = Int.fdiv p.date 1000 ∧
    ∀ t : Int, getCurrentTimestamp t = Int.fdiv t 1000 :=
  ⟨(parse_some_spec chrono fmtTime fmtDate now expression p h).1, fun _ => rfl⟩

/-- Witness for C5: a resolved instant at 1500 ms is reported as second 1,
truncated and not rounded up. -/
theorem c5_truncation_witness :
    ParsedTime.timestamp ⟨1, "0 minutes ago", 1500⟩ = Int.fdiv 1500 1000 ∧
    ∀ t : Int, getCurrentTimestamp t = Int.fdiv t 1000 :=
  c5_truncation (wChrono 1500) (wFmt "T") (wFmt "D") 2000 "x"
    ⟨1, "0 minutes ago", 1500⟩ (by decide)

/-- C6: empty-input rejection — an expression that is empty or consists only of
whitespace yields `none` for every grammar collaborator; the universal
quantification over the grammar expresses that the grammar is never
consulted. -/
theorem c6_empty_input (expression : String)
    (hws : ∀ c ∈ expression.data, isWs c = true) :
    ∀ (chrono : String → List Int) (fmtTime fmtDate : Int → String) (now : Int),
      parseTimeExpression chrono fmtTime fmtDate now expression = none := by
  intro chrono fmtTime fmtDate now
  simp [parseTimeExpression, jsTrim_eq_empty_of_ws expression hws]

/-- Witness for C6: three spaces resolve to nothing. -/
theorem c6_empty_input_witness :
    parseTimeExpression (wChrono 0) (wFmt "T") (wFmt "D") 0 "   " = none :=
  c6_empty_input "   " (by decide) (wChrono 0) (wFmt "T") (wFmt "D") 0

/-- C7: resolvability check — `validateTimeExpression` is true exactly when
`parseTimeExpression` on the same expression does not return `null`. -/
theorem c7_validate_iff (chrono : String → List Int) (fmtTime fmtDate : Int → String)
    (now : Int) (expression : String) :
    validateTimeExpression chrono fmtTime fmtDate now expression = true ↔
      parseTimeExpression chrono fmtTime fmtDate now expression ≠ none := by
  simp [validateTimeExpression, Option.isSome_iff_ne_none]

/-- C8: the examples catalog is exactly the fixed ten-element list, in order. -/
theorem c8_examples_catalog :
    getExamples =
      ["2 hours ago", "30 minutes ago", "1 day ago", "yesterday at 3pm",
       "yesterday 15:30", "last friday at 9am", "tuesday at noon",
       "3 days ago at 2pm", "this morning at 8am", "last night at 10pm"] ∧
    getExamples.length = 10 :=
  ⟨rfl, rfl⟩

/-- C9: non-empty description — every returned `ParsedTime` carries a
non-empty description, in all branches of the description generator. -/
theorem c9_description_nonempty (chrono : String → List Int)
    (fmtTime fmtDate : Int → String) (now : Int) (expression : String)
    (p : ParsedTime)
    (h : parseTimeExpression chrono fmtTime fmtDate now expression = some p) :
    p.description ≠ "" := by
  rw [(parse_some_spec chrono fmtTime fmtDate now expression p h).2.1]
  exact generateDescription_ne_empty fmtTime fmtDate now expression p.date

/-- Witness for C9. -/
theorem c9_description_nonempty_witness :
    ParsedTime.description ⟨0, "0 minutes ago", 0⟩ ≠ "" :=
  c9_description_nonempty (wChrono 0) (wFmt "T") (wFmt "D") 9 "x"
    ⟨0, "0 minutes ago", 0⟩ (by decide)

/-- C10: whitespace behaviour — resolution depends only on the trimmed text
(resolvability, `timestamp` and `date` agree between an expression and its
trimmed form), while the 7-plus-days verbatim branch echoes the original,
possibly untrimmed, expression in the description. -/
theorem c10_trim_behaviour (chrono : String → List Int)
    (fmtTime fmtDate : Int → String) (now : Int) (expression : String) :
    Option.map (fun p => (p.timestamp, p.date))
        (parseTimeExpression chrono fmtTime fmtDate now expression) =
      Option.map (fun p => (p.timestamp, p.date))
        (parseTimeExpression chrono fmtTime fmtDate now (jsTrim expression)) ∧
    ∀ p, parseTimeExpression chrono fmtTime fmtDate now expression = some p →
      ¬ Int.fdiv (now - p.date) (1000 * 60) < 60 →
      ¬ Int.fdiv (Int.fdiv (now - p.date) (1000 * 60)) 60 < 24 →
      ¬ Int.fdiv (Int.fdiv (Int.fdiv (now - p.date) (1000 * 60)) 60) 24 < 7 →
      p.description = expression ++ " (" ++ fmtDate p.date ++ ")" := by
  constructor
  · by_cases h0 : jsTrim expression = ""
    · simp [parseTimeExpression, h0, show jsTrim "" = "" from rfl]
    · simp only [parseTimeExpression, jsTrim_idem, if_neg h0]
      cases hh : (chrono (jsTrim expression)).head? with
      | none => simp
      | some c =>
        by_cases hf : now < c
        · by_cases hb : c - msPerDay ≤ now <;> simp [hf, hb]
        · simp [hf]
  · intro p h h1 h2 h3
    rw [(parse_some_spec chrono fmtTime fmtDate now expression p h).2.1]
    simp only [generateDescription]
    rw [if_neg h1, if_neg h2, if_neg h3]

/-- Witness for C10: a leading space does not change the resolved fields, and
at ten days in the past the description echoes the untrimmed expression. -/
theorem c10_trim_behaviour_witness :
    Option.map (fun p => (p.timestamp, p.date))
        (parseTimeExpression (wChrono 0) (wFmt "T") (wFmt "D") 864000000 " a") =
      Option.map (fun p => (p.timestamp, p.date))
        (parseTimeExpression (wChrono 0) (wFmt "T") (wFmt "D") 864000000 (jsTrim " a")) ∧
    ParsedTime.description ⟨0, " a (D)", 0⟩ = " a" ++ " (" ++ "D" ++ ")" :=
  ⟨(c10_trim_behaviour (wChrono 0) (wFmt "T") (wFmt "D") 864000000 " a").1,
   (c10_trim_behaviour (wChrono 0) (wFmt "T") (wFmt "D") 864000000 " a").2
     ⟨0, " a (D)", 0⟩ (by decide) (by decide) (by decide) (by decide)⟩

end Zapping
